import Mathlib

/-!
Verification of the storybook-rs annotation → schema inference → registry
pipeline.  The definitions below are shallow embeddings of the Rust sources
`src/crates/storybook-derive/src/lib.rs` (attribute extraction, lorem
generation, control/default inference, descriptor emission data) and
`src/crates/storybook/src/lib.rs` (the runtime component and enum registries
and the render dispatcher).  Machine-generated code (the `StoryArgs` structs
emitted by the derive macro and the `FromStr`/`Display` impls emitted by
`derive_story_select`) is embedded parametrically in the field list or
variant list it is generated from.
-/

namespace StorybookRS

/-! ### String helpers, modelling Rust `str::contains` / `str::starts_with` -/

/-- Character-list version of Rust `str::starts_with`: the first list is the
pattern, the second the text. -/
def charsPrefixOf : List Char → List Char → Bool
  | [], _ => true
  | _ :: _, [] => false
  | a :: as, b :: bs => a == b && charsPrefixOf as bs

/-- Character-list version of Rust `str::contains`: the first list is the
pattern, the second the text. -/
def charsContains (pat : List Char) : List Char → Bool
  | [] => charsPrefixOf pat []
  | c :: cs => charsPrefixOf pat (c :: cs) || charsContains pat cs

/-- Model of Rust `s.contains(pat)` (substring containment). -/
def strContains (s pat : String) : Bool :=
  charsContains pat.toList s.toList

/-- Model of Rust `s.starts_with(pat)`. -/
def strStartsWith (s pat : String) : Bool :=
  charsPrefixOf pat.toList s.toList

/-- Model of Rust `ty_string.trim().replace(" ", "")` as used on type-name
strings produced by `quote!` (whose only whitespace is the space character). -/
def removeSpaces (s : String) : String :=
  ⟨s.toList.filter (fun c => !(c == ' '))⟩

/-! ### `ControlType` (crates/storybook/src/lib.rs) -/

/-- The control kinds of `storybook::ControlType`. -/
inductive ControlType where
  | Text
  | Select
  | Color
  | Boolean
  | Number
deriving DecidableEq

/-! ### Lorem generator (`generate_lorem_ipsum`, crates/storybook-derive) -/

/-- The fixed `LOREM_WORDS` table, transcribed verbatim (duplicates included). -/
def LOREM_WORDS : List String := [
  "lorem", "ipsum", "dolor", "sit", "amet", "consectetur", "adipiscing", "elit",
  "sed", "do", "eiusmod", "tempor", "incididunt", "ut", "labore", "et",
  "dolore", "magna", "aliqua", "enim", "ad", "minim", "veniam", "quis",
  "nostrud", "exercitation", "ullamco", "laboris", "nisi", "aliquip", "ex", "ea",
  "commodo", "consequat", "duis", "aute", "irure", "in", "reprehenderit", "voluptate",
  "velit", "esse", "cillum", "fugiat", "nulla", "pariatur", "excepteur", "sint",
  "occaecat", "cupidatat", "non", "proident", "sunt", "culpa", "qui", "officia",
  "deserunt", "mollit", "anim", "id", "est", "laborum", "pellentesque", "habitant",
  "morbi", "tristique", "senectus", "netus", "et", "malesuada", "fames", "ac",
  "turpis", "egestas", "vestibulum", "tortor", "quam", "feugiat", "vitae", "ultricies",
  "legimus", "typi", "qui", "nusquam", "vici", "sunt", "signa", "consuetudium"]

/-- The word list built by the `for i in 0..word_count` loop:
`words.push(LOREM_WORDS[i % LOREM_WORDS.len()])`. -/
def generateLoremWords (word_count : Nat) : List String :=
  (List.range word_count).map (fun i => LOREM_WORDS.getD (i % LOREM_WORDS.length) "")

/-- `generate_lorem_ipsum`: the loop above followed by `words.join(" ")`. -/
def generate_lorem_ipsum (word_count : Nat) : String :=
  String.intercalate " " (generateLoremWords word_count)

/-! ### Extracted story attributes (`get_story_attrs`, crates/storybook-derive) -/

/-- The tuple returned by `get_story_attrs`:
`(control_type, default_value, from_type, lorem_count)`.  The `from` type is
kept as its (space-normalised) source string. -/
structure StoryAttrs where
  control_type : Option String
  default_value : Option String
  from_type : Option String
  lorem_count : Option Nat
deriving DecidableEq

/-! ### Control-kind inference (`derive_story`, crates/storybook-derive) -/

/-- The ordered numeric token list checked by auto-detection. -/
def numericTokens : List String := ["i32", "f32", "u32", "f64", "usize"]

/-- The `control` computation of `derive_story` (the `ControlType` stored in
the runtime `ArgType`): explicit override first, else substring auto-detection
on the `from` type when present, otherwise on the declared type string. -/
def inferControl (attrs : StoryAttrs) (ty_string : String) : ControlType :=
  match attrs.control_type with
  | some ct =>
      if ct = "color" then ControlType.Color
      else if ct = "select" then ControlType.Select
      else ControlType.Text
  | none =>
      let ty_to_check :=
        match attrs.from_type with
        | some f => f
        | none => ty_string
      if strContains ty_to_check "bool" then ControlType.Boolean
      else if strContains ty_to_check "i32" || strContains ty_to_check "f32"
          || strContains ty_to_check "u32" || strContains ty_to_check "f64"
          || strContains ty_to_check "usize" then ControlType.Number
      else ControlType.Text

/-- Spec transcription (for the refinement claim): the fixed explicit table
mapping an override string to a control kind. -/
def specControlTable (c : String) : ControlType :=
  if c = "color" then ControlType.Color
  else if c = "select" then ControlType.Select
  else ControlType.Text

/-- Spec transcription: auto-detection by substring match against the fixed
ordered token set, boolean tokens before numeric tokens, default Text. -/
def specAutoDetect (tyName : String) : ControlType :=
  if strContains tyName "bool" then ControlType.Boolean
  else if numericTokens.any (fun tok => strContains tyName tok) then ControlType.Number
  else ControlType.Text

/-- Spec transcription of the full two-stage resolution order, inspecting the
`from` type's name during auto-detection when that override is present. -/
def specInferControl (attrs : StoryAttrs) (ty : String) : ControlType :=
  match attrs.control_type with
  | some c => specControlTable c
  | none => specAutoDetect (attrs.from_type.getD ty)

/-- The `control_str` computation of `derive_story` (the lowercase control
string written into the generated stories file).  Auto-detection here reads
the declared type string directly. -/
def control_str (attrs : StoryAttrs) (ty_string : String) : String :=
  match attrs.control_type with
  | some ct =>
      if ct = "color" then "color"
      else if ct = "select" then "select"
      else "text"
  | none =>
      if strContains ty_string "bool" then "boolean"
      else if strContains ty_string "i32" || strContains ty_string "f32"
          || strContains ty_string "u32" || strContains ty_string "f64"
          || strContains ty_string "usize" then "number"
      else "text"

/-- The `default_val_str` computation of `derive_story` (the default value
written into the generated stories file): explicit default literal, else
quoted lorem text, else the zero-value chain keyed first on the computed
control string and then on the declared type string. -/
def default_val_str (attrs : StoryAttrs) (ty_string : String) : String :=
  match attrs.default_value with
  | some dv => dv
  | none =>
      match attrs.lorem_count with
      | some lorem_word_count => "'" ++ generate_lorem_ipsum lorem_word_count ++ "'"
      | none =>
          if control_str attrs ty_string = "select" then "null"
          else if strContains ty_string "String" then "''"
          else if strContains ty_string "bool" then "false"
          else if strContains ty_string "i32" || strContains ty_string "f32"
              || strContains ty_string "u32" || strContains ty_string "f64"
              || strContains ty_string "usize" then "0"
          else "undefined"

/-! ### `ArgType` construction (`derive_story`, crates/storybook-derive) -/

/-- `storybook::ArgType`, the runtime schema record for one field. -/
structure ArgType where
  name : String
  default_value : Option String
  control : ControlType
  required : Bool
  options : Option (List String)
deriving DecidableEq

/-- The `ArgType` built by `derive_story` for one field.  `selOptions` stands
for `<field_ty as storybook::StorySelect>::options()`, the variant list the
`StorySelect` derive generates for the field's enum type; it is baked into
`options` whenever the explicit control override is "select". -/
def mkArgType (field_name_str : String) (ty_string : String) (attrs : StoryAttrs)
    (selOptions : List String) : ArgType :=
  { name := field_name_str
    default_value :=
      match attrs.default_value with
      | some v => some v
      | none =>
          match attrs.lorem_count with
          | some lorem_word_count => some (generate_lorem_ipsum lorem_word_count)
          | none => none
    control := inferControl attrs ty_string
    required := !(strStartsWith ty_string "Option <")
    options := if attrs.control_type = some "select" then some selOptions else none }

/-- The `options_json` string `derive_story` embeds in the generated stories
file for a select field: a call to the runtime enum-option accessor, keyed by
the space-normalised field type name; empty for non-select fields. -/
def options_json (attrs : StoryAttrs) (ty_string : String) : String :=
  if attrs.control_type = some "select" then
    "get_enum_options('" ++ removeSpaces ty_string ++ "')"
  else ""

/-! ### Runtime registries and render dispatch (crates/storybook/src/lib.rs) -/

/-- One entry of the component registry (`StoryRegistration`): name, schema
accessor and render function.  `A` stands for the JS argument payload type
and `N` for the produced DOM-node type, both opaque to the registry. -/
structure StoryRegistration (A N : Type) where
  name : String
  args : List ArgType
  renderFn : A → N

/-- `register_story`: pushes a registration onto the end of the story
registry vector, unconditionally. -/
def register_story {A N : Type} (reg : List (StoryRegistration A N))
    (r : StoryRegistration A N) : List (StoryRegistration A N) :=
  reg ++ [r]

/-- The `.iter().find(|meta| meta.name == name)` lookup of `render_story`:
first entry with the given name. -/
def findStory {A N : Type} (reg : List (StoryRegistration A N)) (name : String) :
    Option (StoryRegistration A N) :=
  reg.find? (fun meta => meta.name == name)

/-- `render_story`: resolves the component by name and invokes its render
function; an unregistered name yields the explicit not-found error carrying
the offending name (the container-element wrapping done through `web_sys` is
an external DOM effect and is left opaque in the Ok value). -/
def render_story {A N : Type} (reg : List (StoryRegistration A N))
    (name : String) (args : A) : Except String N :=
  match findStory reg name with
  | some meta => Except.ok (meta.renderFn args)
  | none => Except.error ("Story '" ++ name ++ "' not found")

/-- The enum option registry (`ENUM_REGISTRY`): a map from enum type name to
its ordered variant list.  The `HashMap` is modelled as an association list
whose newest binding shadows older ones. -/
abbrev EnumRegistry := List (String × List String)

/-- `register_enum_options`: `HashMap::insert`, overwriting any previous
binding for the same type name. -/
def register_enum_options (reg : EnumRegistry) (type_name : String)
    (options : List String) : EnumRegistry :=
  (type_name, options) :: reg

/-- `get_enum_options`: registry lookup; `none` models the `JsValue::NULL`
returned for an unregistered type name. -/
def get_enum_options (reg : EnumRegistry) (type_name : String) : Option (List String) :=
  match reg with
  | [] => none
  | (k, v) :: rest => if k = type_name then some v else get_enum_options rest type_name

/-! ### Payload deserialization model (generated `StoryArgs` structs)

`derive_story` emits, per component, a `StoryArgs` struct in which every
field carries `#[serde(default)]`, so a key missing from the input payload is
filled with the field's default value instead of failing deserialization.
The generated struct is embedded parametrically: a component is a list of
`FieldSchema`s (field name plus the default the generated code supplies for
it — `Default::default()` of the field type, or `T::default()` through
`unwrap_or_default()` for select fields), and a payload is an association
list of the well-typed values present in the input object. -/

structure FieldSchema (V : Type) where
  name : String
  dflt : V
deriving DecidableEq

/-- First binding for a key in a payload object, `none` when the key is
absent (unknown payload keys are simply never looked up, matching serde
ignoring them). -/
def lookupKey {V : Type} (payload : List (String × V)) (k : String) : Option V :=
  match payload with
  | [] => none
  | (k', v) :: rest => if k' = k then some v else lookupKey rest k

/-- Deserializing one `#[serde(default)]` field: the payload value when the
key is present, the field's default when it is absent (never a failure). -/
def deserializeField {V : Type} (payload : List (String × V)) (f : FieldSchema V) : V :=
  (lookupKey payload f.name).getD f.dflt

/-- Deserializing a whole `StoryArgs` struct: each declared field in order. -/
def deserializeArgs {V : Type} (fields : List (FieldSchema V))
    (payload : List (String × V)) : List V :=
  fields.map (deserializeField payload)

/-- The payload entries that explicitly set every omitted field to its
default value. -/
def missingDefaults {V : Type} (fields : List (FieldSchema V))
    (payload : List (String × V)) : List (String × V) :=
  (fields.filter (fun f => (lookupKey payload f.name).isNone)).map
    (fun f => (f.name, f.dflt))

/-! ### Attribute extraction (`get_story_attrs`, crates/storybook-derive) -/

/-- The value attached to one `#[story(...)]` meta item, as seen by
`attr.parse_nested_meta`: a string literal, or some other token tree (an
integer literal, a path, ...) that `value.parse::<syn::LitStr>()` rejects. -/
inductive MetaValue where
  | litStr (s : String)
  | other
deriving DecidableEq

/-- One meta item `key` or `key = value` inside `#[story(...)]`. -/
structure MetaItem where
  key : String
  value : Option MetaValue
deriving DecidableEq

/-- Model of Rust `str::parse::<usize>()`: an optional leading plus sign,
then a non-empty all-digit string whose value fits in 64 bits; anything else
is a parse error. -/
def parseUsize (s : String) : Option Nat :=
  let cs :=
    match s.toList with
    | '+' :: rest => rest
    | cs => cs
  if cs = [] then none
  else if cs.all Char.isDigit then
    let n := cs.foldl (fun acc c => acc * 10 + (c.toNat - 48)) 0
    if n < 2 ^ 64 then some n else none
  else none

/-- Modelled from the external `syn` crate: `syn::parse_str::<syn::Type>` on
the contents of the `from` string literal.  Approximated as a recognizer: a
type string must be non-empty, start with a letter or underscore, and consist
of path/generic characters; the empty string (and any other malformed string)
is a parse error, exactly as in `syn`. -/
def parseSynType (s : String) : Option String :=
  match s.toList with
  | [] => none
  | c :: cs =>
      if (c.isAlpha || c == '_')
          && (c :: cs).all (fun ch =>
            ch.isAlphanum || ch == '_' || ch == ':' || ch == '<' || ch == '>'
              || ch == ' ' || ch == ',' || ch == '&') then
        some s
      else none

/-- One iteration of the `parse_nested_meta` closure in `get_story_attrs`:
`control`/`default` accept only string-literal values; `from` accepts a
string literal whose contents must parse as a type — `.expect("Invalid type
for from")` panics (build abort, modelled as `none`) when they do not;
`lorem` without a value defaults to 8 and with a value requires a
usize-parsable string literal; every other failure leaves the state
unchanged, and unknown keys are ignored. -/
def applyMeta (st : StoryAttrs) (m : MetaItem) : Option StoryAttrs :=
  if m.key = "control" then
    match m.value with
    | some (MetaValue.litStr s) => some { st with control_type := some s }
    | _ => some st
  else if m.key = "default" then
    match m.value with
    | some (MetaValue.litStr s) => some { st with default_value := some s }
    | _ => some st
  else if m.key = "from" then
    match m.value with
    | some (MetaValue.litStr s) =>
        match parseSynType s with
        | some t => some { st with from_type := some t }
        | none => none
    | _ => some st
  else if m.key = "lorem" then
    match m.value with
    | some (MetaValue.litStr s) =>
        match parseUsize s with
        | some count => some { st with lorem_count := some count }
        | none => some st
    | some MetaValue.other => some st
    | none => some { st with lorem_count := some 8 }
  else some st

/-- `get_story_attrs` over the meta items of a field's `#[story(...)]`
attributes, starting from the all-absent state; `none` models the build
aborting on the `from` panic. -/
def getStoryAttrs (items : List MetaItem) : Option StoryAttrs :=
  items.foldlM applyMeta ⟨none, none, none, none⟩

/-! ### `StorySelect` derive (`derive_story_select`, crates/storybook-derive)

The derive is embedded parametrically in the enum's ordered variant-name
list: a variant is its index into that list, `Display` renders the variant's
name, and the generated `FromStr` `match` tries the variant-name arms in
order. -/

/-- The arm-by-arm `match` the `FromStr` impl compiles to, tracking the index
of the current arm. -/
def matchVariant : List String → Nat → String → Option Nat
  | [], _, _ => none
  | n :: rest, i, s => if s = n then some i else matchVariant rest (i + 1) s

/-- The generated `from_str`: the first variant whose name equals the input,
else the error string naming the enum type and the offending input. -/
def variantFromStr (type_name : String) (variants : List String) (s : String) :
    Except String Nat :=
  match matchVariant variants 0 s with
  | some i => Except.ok i
  | none => Except.error ("Invalid " ++ type_name ++ " variant: " ++ s)

/-- The generated `Display`: a variant renders as its own name. -/
def variantDisplay (variants : List String) (i : Fin variants.length) : String :=
  variants.get i

/-! ### Claim theorems (first group) -/

/-- Claim C4: for every N, the lorem generator returns exactly N words, the
i-th word being `LOREM_WORDS[i mod L]` with L the word-list length, and the
emitted string is those words joined by single spaces; the function is a pure
Lean function, so determinism (identical output for identical N) is by
construction. -/
theorem C4_lorem_ipsum (n : Nat) :
    (generateLoremWords n).length = n
    ∧ (∀ i, (h : i < (generateLoremWords n).length) →
        (generateLoremWords n).get ⟨i, h⟩ = LOREM_WORDS.getD (i % LOREM_WORDS.length) "")
    ∧ generate_lorem_ipsum n = String.intercalate " " (generateLoremWords n) := by
  refine ⟨by simp [generateLoremWords], ?_, rfl⟩
  intro i h
  simp [generateLoremWords] at h ⊢

/-- Witness for C4 at the concrete word count 90: the list has 90 words and
the 89th word wraps around to index 88 mod 88 = 0 of the table. -/
theorem C4_lorem_ipsum_witness :
    (generateLoremWords 90).length = 90
    ∧ (generateLoremWords 90).get ⟨88, by decide⟩
        = LOREM_WORDS.getD (88 % LOREM_WORDS.length) "" := by
  exact ⟨(C4_lorem_ipsum 90).1, (C4_lorem_ipsum 90).2.1 88 (by decide)⟩

/-- Claim C1: the inferred control kind follows the two-stage resolution
order — explicit override through the fixed table (color→Color,
select→Select, otherwise Text), else substring auto-detection (a boolean
token yields Boolean, else a numeric token among i32/f32/u32/f64/usize yields
Number, else Text), auto-detection inspecting the `from` type's name when
that override is present. -/
theorem C1_control_resolution (attrs : StoryAttrs) (ty : String) :
    inferControl attrs ty = specInferControl attrs ty := by
  cases h : attrs.control_type with
  | some c => simp [inferControl, specInferControl, specControlTable, h]
  | none =>
      cases hf : attrs.from_type with
      | some f =>
          simp [inferControl, specInferControl, specAutoDetect, numericTokens, h, hf, or_assoc]
      | none =>
          simp [inferControl, specInferControl, specAutoDetect, numericTokens, h, hf, or_assoc]

/-- Claim C2: default-value resolution order for the emitted default — an
explicit default literal wins; else a lorem word count yields the quoted
generated placeholder; else the type-appropriate zero value: "null" for a
Select control (never the empty string), "''" for text-like (String) types,
"false" for boolean, "0" for numeric, and "undefined" for anything
unrecognized. -/
theorem C2_default_resolution (attrs : StoryAttrs) (ty : String) :
    (∀ dv, attrs.default_value = some dv → default_val_str attrs ty = dv)
    ∧ (attrs.default_value = none → ∀ n, attrs.lorem_count = some n →
        default_val_str attrs ty = "'" ++ generate_lorem_ipsum n ++ "'")
    ∧ (attrs.default_value = none → attrs.lorem_count = none →
        ((control_str attrs ty = "select" →
            default_val_str attrs ty = "null" ∧ default_val_str attrs ty ≠ "''")
        ∧ (control_str attrs ty ≠ "select" → strContains ty "String" = true →
            default_val_str attrs ty = "''")
        ∧ (control_str attrs ty ≠ "select" → strContains ty "String" = false →
            strContains ty "bool" = true → default_val_str attrs ty = "false")
        ∧ (control_str attrs ty ≠ "select" → strContains ty "String" = false →
            strContains ty "bool" = false →
            (strContains ty "i32" || strContains ty "f32" || strContains ty "u32"
              || strContains ty "f64" || strContains ty "usize") = true →
            default_val_str attrs ty = "0")
        ∧ (control_str attrs ty ≠ "select" → strContains ty "String" = false →
            strContains ty "bool" = false →
            (strContains ty "i32" || strContains ty "f32" || strContains ty "u32"
              || strContains ty "f64" || strContains ty "usize") = false →
            default_val_str attrs ty = "undefined"))) := by
  refine ⟨?_, ?_, ?_⟩
  · intro dv hdv
    simp [default_val_str, hdv]
  · intro hd n hn
    simp [default_val_str, hd, hn]
  · intro hd hn
    refine ⟨?_, ?_, ?_, ?_, ?_⟩
    · intro hsel
      constructor
      · simp [default_val_str, hd, hn, hsel]
      · simp [default_val_str, hd, hn, hsel]
    · intro hsel hstr
      simp [default_val_str, hd, hn, hsel, hstr]
    · intro hsel hstr hbool
      simp [default_val_str, hd, hn, hsel, hstr, hbool]
    · intro hsel hstr hbool hnum
      simp [default_val_str, hd, hn, hsel, hstr, hbool, hnum]
    · intro hsel hstr hbool hnum
      simp [default_val_str, hd, hn, hsel, hstr, hbool, hnum]

/-- Witness for C2 at a Select field with no explicit default and no lorem
hint: the resolved default is the null sentinel, not the empty string. -/
theorem C2_default_resolution_witness :
    default_val_str ⟨some "select", none, none, none⟩ "AlertType" = "null"
    ∧ default_val_str ⟨some "select", none, none, none⟩ "AlertType" ≠ "''" :=
  ((C2_default_resolution ⟨some "select", none, none, none⟩ "AlertType").2.2
    rfl rfl).1 (by decide)

/-! ### Helper lemmas -/

theorem lookupKey_append_some {V : Type} {p q : List (String × V)} {k : String} {v : V}
    (h : lookupKey p k = some v) : lookupKey (p ++ q) k = some v := by
  induction p with
  | nil => simp [lookupKey] at h
  | cons e rest ih =>
      cases e with
      | mk k' v' =>
          by_cases hk : k' = k
          · simp [lookupKey, hk] at h ⊢
            exact h
          · simp [lookupKey, hk] at h ⊢
            exact ih h

theorem lookupKey_append_none {V : Type} {p : List (String × V)} {k : String}
    (h : lookupKey p k = none) (q : List (String × V)) :
    lookupKey (p ++ q) k = lookupKey q k := by
  induction p with
  | nil => rfl
  | cons e rest ih =>
      cases e with
      | mk k' v' =>
          by_cases hk : k' = k
          · simp [lookupKey, hk] at h
          · simp [lookupKey, hk] at h ⊢
            exact ih h

theorem lookupKey_missingDefaults {V : Type} {fields : List (FieldSchema V)}
    {payload : List (String × V)} {f : FieldSchema V}
    (hnd : (fields.map FieldSchema.name).Nodup) (hf : f ∈ fields)
    (hnone : lookupKey payload f.name = none) :
    lookupKey (missingDefaults fields payload) f.name = some f.dflt := by
  induction fields with
  | nil => cases hf
  | cons g rest ih =>
      have hpair : (∀ x ∈ rest, ¬x.name = g.name)
          ∧ (List.map FieldSchema.name rest).Nodup := by simpa using hnd
      have hnd' := hpair.2
      rcases List.mem_cons.mp hf with hfg | hfr
      · subst hfg
        simp [missingDefaults, List.filter_cons, hnone, lookupKey]
      · have hgname : g.name ≠ f.name := fun heq => hpair.1 f hfr heq.symm
        by_cases hg : (lookupKey payload g.name).isNone
        · simp [missingDefaults, List.filter_cons, hg, lookupKey, hgname]
          simpa [missingDefaults] using ih hnd' hfr
        · simp [missingDefaults, List.filter_cons, hg]
          simpa [missingDefaults] using ih hnd' hfr

theorem get_enum_options_of_not_mem {reg : EnumRegistry} {type_name : String}
    (h : ∀ e ∈ reg, e.1 ≠ type_name) : get_enum_options reg type_name = none := by
  induction reg with
  | nil => rfl
  | cons e rest ih =>
      cases e with
      | mk k v =>
          have hk : k ≠ type_name := h (k, v) (List.mem_cons_self _ _)
          simp [get_enum_options, hk]
          exact ih (fun x hx => h x (List.mem_cons_of_mem _ hx))

theorem get_enum_options_insert (reg : EnumRegistry) (type_name : String)
    (options : List String) :
    get_enum_options (register_enum_options reg type_name options) type_name
      = some options := by
  simp [register_enum_options, get_enum_options]

theorem find?_append_some {α : Type} {p : α → Bool} {l₁ : List α} {a : α}
    (h : l₁.find? p = some a) (l₂ : List α) : (l₁ ++ l₂).find? p = some a := by
  induction l₁ with
  | nil => simp [List.find?] at h
  | cons x xs ih =>
      by_cases hx : p x
      · rw [List.find?_cons_of_pos _ hx] at h
        rw [List.cons_append, List.find?_cons_of_pos _ hx]
        exact h
      · rw [List.find?_cons_of_neg _ hx] at h
        rw [List.cons_append, List.find?_cons_of_neg _ hx]
        exact ih h

theorem matchVariant_get {names : List String} (hnd : names.Nodup) :
    ∀ (k i : Nat) (h : i < names.length),
      matchVariant names k (names.get ⟨i, h⟩) = some (k + i) := by
  induction names with
  | nil => intro k i h; cases h
  | cons n rest ih =>
      intro k i h
      cases i with
      | zero => simp [matchVariant]
      | succ j =>
          have hlt : j < rest.length := by simpa using h
          have hnotmem := (List.nodup_cons.mp hnd).1
          have hnd' := (List.nodup_cons.mp hnd).2
          have hne : rest.get ⟨j, hlt⟩ ≠ n := by
            intro heq
            exact hnotmem (heq ▸ List.get_mem rest j hlt)
          have hget : (n :: rest).get ⟨j + 1, h⟩ = rest.get ⟨j, hlt⟩ := rfl
          rw [hget]
          have harith : k + 1 + j = k + (j + 1) := by omega
          simp only [matchVariant, if_neg hne]
          rw [ih hnd' (k + 1) j hlt, harith]

theorem matchVariant_none {names : List String} {s : String}
    (h : ∀ n ∈ names, n ≠ s) : ∀ k, matchVariant names k s = none := by
  induction names with
  | nil => intro k; rfl
  | cons n rest ih =>
      intro k
      have hn : s ≠ n := fun he => h n (List.mem_cons_self _ _) he.symm
      simp only [matchVariant, if_neg hn]
      exact ih (fun x hx => h x (List.mem_cons_of_mem _ hx)) (k + 1)

/-! ### Claim theorems (second group) -/

/-- Claim C3: deserializing a payload holding only a subset of a component's
fields yields the same argument values as deserializing that payload with
every omitted field explicitly set to its default, and a missing key always
resolves to the field's default (by `#[serde(default)]`, never a parse
failure).  The field names of a Rust struct are necessarily distinct, hence
the `Nodup` hypothesis. -/
theorem C3_missing_keys_default {V : Type} (fields : List (FieldSchema V))
    (payload : List (String × V)) (hnd : (fields.map FieldSchema.name).Nodup) :
    deserializeArgs fields payload
      = deserializeArgs fields (payload ++ missingDefaults fields payload)
    ∧ ∀ f ∈ fields, lookupKey payload f.name = none →
        deserializeField payload f = f.dflt := by
  constructor
  · apply List.map_congr_left
    intro f hf
    cases h : lookupKey payload f.name with
    | some v =>
        simp [deserializeField, h, lookupKey_append_some h]
    | none =>
        rw [deserializeField, deserializeField, lookupKey_append_none h,
          lookupKey_missingDefaults hnd hf h]
        simp [h]
  · intro f _ h
    simp [deserializeField, h]

/-- Witness for C3: a two-field component (defaults modelled as strings) and
a payload supplying only the first field deserializes identically to the
payload extended with the second field's default. -/
theorem C3_missing_keys_default_witness :
    deserializeArgs [⟨"label", "''"⟩, ⟨"color", "#007bff"⟩] [("label", "hi")]
      = deserializeArgs [⟨"label", "''"⟩, ⟨"color", "#007bff"⟩]
          ([("label", "hi")]
            ++ missingDefaults [⟨"label", "''"⟩, ⟨"color", "#007bff"⟩] [("label", "hi")])
    ∧ deserializeField [("label", "hi")] (⟨"color", "#007bff"⟩ : FieldSchema String)
        = "#007bff" :=
  ⟨(C3_missing_keys_default [⟨"label", "''"⟩, ⟨"color", "#007bff"⟩] [("label", "hi")]
      (by decide)).1,
   (C3_missing_keys_default [⟨"label", "''"⟩, ⟨"color", "#007bff"⟩] [("label", "hi")]
      (by decide)).2 ⟨"color", "#007bff"⟩ (by decide) (by decide)⟩

/-- Claim C5: dispatching a render for a name absent from the component
registry fails with the explicit not-found error carrying that name and
produces no node, while a registered name invokes the (first) matching
component's render function. -/
theorem C5_render_not_found {A N : Type} (reg : List (StoryRegistration A N))
    (name : String) (args : A) :
    ((∀ m ∈ reg, m.name ≠ name) →
      render_story reg name args = Except.error ("Story '" ++ name ++ "' not found"))
    ∧ ∀ m, findStory reg name = some m →
        render_story reg name args = Except.ok (m.renderFn args) := by
  constructor
  · intro h
    have hfind : findStory reg name = none := by
      apply List.find?_eq_none.mpr
      intro m hm
      simpa using h m hm
    simp [render_story, hfind]
  · intro m hm
    simp [render_story, hm]

/-- Witness for C5: a one-component registry rejects the name "Foo" with the
not-found error and renders the registered "Button". -/
theorem C5_render_not_found_witness :
    render_story [(⟨"Button", [], fun n => n + 1⟩ : StoryRegistration Nat Nat)] "Foo" 0
      = Except.error ("Story '" ++ "Foo" ++ "' not found")
    ∧ render_story [(⟨"Button", [], fun n => n + 1⟩ : StoryRegistration Nat Nat)] "Button" 4
      = Except.ok 5 :=
  ⟨(C5_render_not_found [⟨"Button", [], fun n => n + 1⟩] "Foo" 0).1
      (by intro m hm; rw [List.mem_singleton] at hm; subst hm; decide),
   (C5_render_not_found [⟨"Button", [], fun n => n + 1⟩] "Button" 4).2
      ⟨"Button", [], fun n => n + 1⟩ rfl⟩

/-- Claim C6: querying enum options before the enum registers returns the
null sentinel rather than an error, and after registering an ordered variant
list the query returns exactly that list. -/
theorem C6_enum_option_query (reg : EnumRegistry) (type_name : String) :
    ((∀ e ∈ reg, e.1 ≠ type_name) → get_enum_options reg type_name = none)
    ∧ ∀ options, get_enum_options (register_enum_options reg type_name options) type_name
        = some options := by
  exact ⟨get_enum_options_of_not_mem,
    fun options => get_enum_options_insert reg type_name options⟩

/-- Witness for C6 at the spec's example: "AlertType" is null before
registration and exactly `["Info","Success","Warning","Error"]` after. -/
theorem C6_enum_option_query_witness :
    get_enum_options [] "AlertType" = none
    ∧ get_enum_options
        (register_enum_options [] "AlertType" ["Info", "Success", "Warning", "Error"])
        "AlertType" = some ["Info", "Success", "Warning", "Error"] :=
  ⟨(C6_enum_option_query [] "AlertType").1 (by intro e he; cases he),
   (C6_enum_option_query [] "AlertType").2 ["Info", "Success", "Warning", "Error"]⟩

/-- Counterexample to claim C7 as stated: for the recognized key `from`, a
string-literal value whose contents do not parse as a type does NOT degrade
to "key absent" — `.expect("Invalid type for from")` panics and aborts the
build (modelled as `none`), unlike the absent-clause result. -/
theorem C7_counterexample :
    getStoryAttrs [⟨"from", some (MetaValue.litStr "")⟩] = none
    ∧ getStoryAttrs [] = some ⟨none, none, none, none⟩
    ∧ getStoryAttrs [⟨"from", some (MetaValue.litStr "")⟩] ≠ getStoryAttrs [] :=
  ⟨rfl, rfl, by decide⟩

/-- Claim C7 as amended: malformed values for `control`, `default` and
`lorem` (and a `from` value that is not a string literal) degrade silently to
the key being absent, leaving the extractor state unchanged and continuing
the build; but a `from` string literal that does not parse as a type aborts
the build.  Unknown keys are ignored. -/
theorem C7_malformed_attrs (st : StoryAttrs) (s : String) (v : Option MetaValue) :
    (applyMeta st ⟨"control", some MetaValue.other⟩ = some st)
    ∧ (applyMeta st ⟨"control", none⟩ = some st)
    ∧ (applyMeta st ⟨"default", some MetaValue.other⟩ = some st)
    ∧ (applyMeta st ⟨"default", none⟩ = some st)
    ∧ (applyMeta st ⟨"from", some MetaValue.other⟩ = some st)
    ∧ (applyMeta st ⟨"from", none⟩ = some st)
    ∧ (parseUsize s = none → applyMeta st ⟨"lorem", some (MetaValue.litStr s)⟩ = some st)
    ∧ (applyMeta st ⟨"lorem", some MetaValue.other⟩ = some st)
    ∧ (parseSynType s = none → applyMeta st ⟨"from", some (MetaValue.litStr s)⟩ = none)
    ∧ (∀ k, k ≠ "control" → k ≠ "default" → k ≠ "from" → k ≠ "lorem" →
        applyMeta st ⟨k, v⟩ = some st) := by
  refine ⟨rfl, rfl, rfl, rfl, rfl, rfl, ?_, rfl, ?_, ?_⟩
  · intro h
    simp [applyMeta, h]
  · intro h
    simp [applyMeta, h]
  · intro k h1 h2 h3 h4
    simp [applyMeta, h1, h2, h3, h4]

/-- Witness for C7 amended, at the unparseable value "": `lorem = ""`
degrades silently while `from = ""` aborts the build. -/
theorem C7_malformed_attrs_witness :
    applyMeta ⟨none, none, none, none⟩ ⟨"lorem", some (MetaValue.litStr "")⟩
      = some ⟨none, none, none, none⟩
    ∧ applyMeta ⟨none, none, none, none⟩ ⟨"from", some (MetaValue.litStr "")⟩ = none :=
  ⟨(C7_malformed_attrs ⟨none, none, none, none⟩ "" none).2.2.2.2.2.2.1 (by decide),
   (C7_malformed_attrs ⟨none, none, none, none⟩ "" none).2.2.2.2.2.2.2.2.1 (by decide)⟩

/-- Counterexample to claim C8 as stated: an `ArgType` built for a select
field (here Alert's `alert_type : AlertType`) has a non-null, non-empty
options list even while the enum registry is still empty, i.e. before the
owning enum has registered — the options are baked in at schema-build time,
not null/empty until registration. -/
theorem C8_counterexample :
    (mkArgType "alert_type" "AlertType" ⟨some "select", none, none, none⟩
        ["Info", "Success", "Warning", "Error"]).control = ControlType.Select
    ∧ get_enum_options [] "AlertType" = none
    ∧ (mkArgType "alert_type" "AlertType" ⟨some "select", none, none, none⟩
        ["Info", "Success", "Warning", "Error"]).options
        = some ["Info", "Success", "Warning", "Error"]
    ∧ (mkArgType "alert_type" "AlertType" ⟨some "select", none, none, none⟩
        ["Info", "Success", "Warning", "Error"]).options ≠ none
    ∧ (mkArgType "alert_type" "AlertType" ⟨some "select", none, none, none⟩
        ["Info", "Success", "Warning", "Error"]).options ≠ some [] := by
  refine ⟨rfl, rfl, rfl, by decide, by decide⟩

/-- Claim C8 as amended: a Select `ArgType`'s options list is always
non-null — it is baked at schema-build time as the owning enum's
`StorySelect` variant list, independent of the Enum Option Registry — while
it is the generated stories artifact that embeds a `get_enum_options` call
keyed by the normalised type name, resolved against the registry at render
time: null before the enum registers and exactly the registered list after. -/
theorem C8_select_options (field_name ty : String) (attrs : StoryAttrs)
    (selOptions : List String) (hsel : attrs.control_type = some "select") :
    (mkArgType field_name ty attrs selOptions).control = ControlType.Select
    ∧ (mkArgType field_name ty attrs selOptions).options = some selOptions
    ∧ options_json attrs ty = "get_enum_options('" ++ removeSpaces ty ++ "')"
    ∧ (∀ reg : EnumRegistry, (∀ e ∈ reg, e.1 ≠ removeSpaces ty) →
        get_enum_options reg (removeSpaces ty) = none)
    ∧ ∀ reg : EnumRegistry,
        get_enum_options (register_enum_options reg (removeSpaces ty) selOptions)
          (removeSpaces ty) = some selOptions := by
  refine ⟨?_, ?_, ?_, ?_, ?_⟩
  · simp [mkArgType, inferControl, hsel]
  · simp [mkArgType, hsel]
  · simp [options_json, hsel]
  · intro reg h
    exact get_enum_options_of_not_mem h
  · intro reg
    exact get_enum_options_insert reg (removeSpaces ty) selOptions

/-- Witness for C8 amended at the Alert example: the baked options and the
embedded render-time lookup string, before and after registration. -/
theorem C8_select_options_witness :
    (mkArgType "alert_type" "AlertType" ⟨some "select", none, none, none⟩
        ["Info", "Success", "Warning", "Error"]).options
      = some ["Info", "Success", "Warning", "Error"]
    ∧ options_json ⟨some "select", none, none, none⟩ "AlertType"
      = "get_enum_options('" ++ removeSpaces "AlertType" ++ "')"
    ∧ get_enum_options
        (register_enum_options [] (removeSpaces "AlertType")
          ["Info", "Success", "Warning", "Error"]) (removeSpaces "AlertType")
      = some ["Info", "Success", "Warning", "Error"] :=
  ⟨(C8_select_options "alert_type" "AlertType" ⟨some "select", none, none, none⟩
      ["Info", "Success", "Warning", "Error"] rfl).2.1,
   (C8_select_options "alert_type" "AlertType" ⟨some "select", none, none, none⟩
      ["Info", "Success", "Warning", "Error"] rfl).2.2.1,
   (C8_select_options "alert_type" "AlertType" ⟨some "select", none, none, none⟩
      ["Info", "Success", "Warning", "Error"] rfl).2.2.2.2 []⟩

/-- Claim C9: registering a component whose name is already present appends a
second entry unconditionally — the registry grows by one on every
registration, with no overwrite and no rejection — and render dispatch for
that name still resolves to the first-registered entry. -/
theorem C9_duplicate_registration {A N : Type} (reg : List (StoryRegistration A N))
    (r : StoryRegistration A N) :
    (register_story reg r).length = reg.length + 1
    ∧ ∀ m, findStory reg r.name = some m →
        findStory (register_story reg r) r.name = some m
        ∧ ∀ args, render_story (register_story reg r) r.name args
            = Except.ok (m.renderFn args) := by
  constructor
  · simp [register_story]
  · intro m hm
    have hfind : findStory (register_story reg r) r.name = some m :=
      find?_append_some hm [r]
    exact ⟨hfind, fun args => by simp [render_story, hfind]⟩

/-- Witness for C9: registering a second "Button" over an existing one grows
the registry to two entries, and rendering "Button" still runs the first
entry's render function. -/
theorem C9_duplicate_registration_witness :
    (register_story [(⟨"Button", [], fun n => n * 2⟩ : StoryRegistration Nat Nat)]
        ⟨"Button", [], fun n => n * 3⟩).length = 2
    ∧ render_story
        (register_story [(⟨"Button", [], fun n => n * 2⟩ : StoryRegistration Nat Nat)]
          ⟨"Button", [], fun n => n * 3⟩) "Button" 5 = Except.ok 10 :=
  ⟨(C9_duplicate_registration [⟨"Button", [], fun n => n * 2⟩]
      ⟨"Button", [], fun n => n * 3⟩).1,
   ((C9_duplicate_registration [⟨"Button", [], fun n => n * 2⟩]
      ⟨"Button", [], fun n => n * 3⟩).2 ⟨"Button", [], fun n => n * 2⟩ rfl).2 5⟩

/-- Claim C10: for every enum deriving StorySelect (embedded as its duplicate
free ordered variant-name list), the generated `FromStr` parses the `Display`
rendering of each variant back to that variant, and any string that is not a
variant name yields the error naming the enum type and the offending
string. -/
theorem C10_fromstr_display (type_name : String) (variants : List String)
    (hnd : variants.Nodup) :
    (∀ i : Fin variants.length,
        variantFromStr type_name variants (variantDisplay variants i)
          = Except.ok i.val)
    ∧ ∀ s, (∀ n ∈ variants, n ≠ s) →
        variantFromStr type_name variants s
          = Except.error ("Invalid " ++ type_name ++ " variant: " ++ s) := by
  constructor
  · intro i
    have h := matchVariant_get hnd 0 i.val i.isLt
    simp only [variantFromStr, variantDisplay]
    rw [show (⟨i.val, i.isLt⟩ : Fin variants.length) = i from rfl] at h
    rw [h]
    simp
  · intro s hs
    simp [variantFromStr, matchVariant_none hs 0]

/-- Witness for C10 at AlertType: "Warning" round-trips to variant index 2
and "Bogus" produces the error naming the enum and the input. -/
theorem C10_fromstr_display_witness :
    variantFromStr "AlertType" ["Info", "Success", "Warning", "Error"]
        (variantDisplay ["Info", "Success", "Warning", "Error"] ⟨2, by decide⟩)
      = Except.ok 2
    ∧ variantFromStr "AlertType" ["Info", "Success", "Warning", "Error"] "Bogus"
      = Except.error ("Invalid " ++ "AlertType" ++ " variant: " ++ "Bogus") :=
  ⟨(C10_fromstr_display "AlertType" ["Info", "Success", "Warning", "Error"]
      (by decide)).1 ⟨2, by decide⟩,
   (C10_fromstr_display "AlertType" ["Info", "Success", "Warning", "Error"]
      (by decide)).2 "Bogus" (by decide)⟩

end StorybookRS
